import Mathlib

/-!
Shallow embedding of `src/pypeln/process/api.py` (the `process` module of the
pypeln pipeline library).

Conventions of the embedding:
* `α` is the type of items flowing through a pipeline; `κ` is the type of the
  keyword-argument mapping produced by `on_start` and consumed by the worker
  function (Python's `kwargs`; when `on_start` is `None`, `kwargs` is the empty
  mapping, modelled by `default : κ`).
* Python callables `f(x, **kwargs)` become Lean functions `α → κ → _`.
* A Python `ValueError` / `AttributeError` raised at graph-construction time
  becomes `Except.error` with the message text (f-string interpolation of the
  offending object is dropped from the message).
* Stage descriptors keep the constructor arguments of `Stage.__init__` as
  fields: the operation (which carries `f`; `f=None` for source and concat
  stages is reflected by the operation carrying no function), `workers`,
  `maxsize`, `on_start`, `on_done`, `dependencies`.
-/

namespace Pypeln

/-- The `worker_constructor` argument of `from_iterable`: either
`threading.Thread` (the default) or `multiprocessing.Process`. -/
inductive WorkerCtor : Type where
  | thread
  | process
deriving DecidableEq, Repr

/-- The per-stage operation, one variant per `Stage` subclass in
`src/pypeln/process/api.py`.  Each variant carries exactly the data the Python
class keeps besides the common `Stage.__init__` fields: `FromIterable` keeps
the source iterable (and `from_iterable` keeps the `worker_constructor`),
`Map`/`FlatMap`/`Filter`/`Each` keep the user callable `f`, `Concat` keeps
nothing (`f=None`). -/
inductive StageOp (α κ : Type) : Type where
  | fromIterableOp (iterable : List α) (worker_constructor : WorkerCtor)
  | mapOp (f : α → κ → α)
  | flatMapOp (f : α → κ → List α)
  | filterOp (f : α → κ → Bool)
  | eachOp (f : α → κ → Unit)
  | concatOp

/-- A stage descriptor: the arguments passed to `Stage.__init__` by the
builders in `api.py`. `on_start` returns the kwargs mapping; `on_done`
consumes it. -/
inductive Stage (α κ : Type) : Type where
  | mk (op : StageOp α κ) (workers : Nat) (maxsize : Nat)
       (on_start : Option (Unit → κ)) (on_done : Option (κ → Unit))
       (dependencies : List (Stage α κ))

def Stage.op : Stage α κ → StageOp α κ
  | .mk o _ _ _ _ _ => o

def Stage.workers : Stage α κ → Nat
  | .mk _ w _ _ _ _ => w

def Stage.maxsize : Stage α κ → Nat
  | .mk _ _ m _ _ _ => m

def Stage.on_start : Stage α κ → Option (Unit → κ)
  | .mk _ _ _ s _ _ => s

def Stage.on_done : Stage α κ → Option (κ → Unit)
  | .mk _ _ _ _ d _ => d

def Stage.dependencies : Stage α κ → List (Stage α κ)
  | .mk _ _ _ _ _ d => d

/-- A Python value handed to a builder where a stage is expected: an actual
`Stage`, a plain iterable (an object with `__iter__`), or anything else. -/
inductive PyObj (α κ : Type) : Type where
  | stage (s : Stage α κ)
  | iterable (l : List α)
  | other

/-- `from_iterable(iterable, maxsize=None, worker_constructor=Thread)`:
builds a `FromIterable` stage with `f=None, workers=1, maxsize=0,
on_start=None, on_done=None, dependencies=[]`.  The `maxsize` parameter is
accepted (an `Option Nat`, default `None`) but never used, exactly as in the
source. -/
def from_iterable (iterable : List α) (maxsize : Option Nat := none)
    (worker_constructor : WorkerCtor := .thread) : Stage α κ :=
  let _ := maxsize
  .mk (.fromIterableOp iterable worker_constructor) 1 0 none none []

/-- `to_stage(obj)`: a `Stage` is returned unchanged, an iterable is wrapped
by `from_iterable(obj)` (all defaults), anything else raises
`ValueError("Object ... is not a Stage or iterable")`. -/
def to_stage : PyObj α κ → Except String (Stage α κ)
  | .stage s => .ok s
  | .iterable l => .ok (from_iterable l)
  | .other => .error "Object is not a Stage or iterable"

/-- The list comprehension `[to_stage(stage) for stage in stages]` in
`concat`: evaluates left to right, propagating the first `ValueError`. -/
def to_stage_all : List (PyObj α κ) → Except String (List (Stage α κ))
  | [] => .ok []
  | o :: rest => do
    let s ← to_stage o
    let ss ← to_stage_all rest
    .ok (s :: ss)

namespace Map

/-- `Map.apply`: `y = self.f(x, **kwargs); self.output_queues.put(y)` — the
list of items pushed to the output queues for input `x`. -/
def apply (f : α → κ → α) (x : α) (kwargs : κ) : List α :=
  [f x kwargs]

end Map

namespace FlatMap

/-- `FlatMap.apply`: `for y in self.f(x, **kwargs): self.output_queues.put(y)`
— every element of the returned sequence is pushed, in order. -/
def apply (f : α → κ → List α) (x : α) (kwargs : κ) : List α :=
  f x kwargs

end FlatMap

namespace Filter

/-- `Filter.apply`: `if self.f(x, **kwargs): self.output_queues.put(x)` —
pushes `x` itself exactly when the predicate holds. -/
def apply (f : α → κ → Bool) (x : α) (kwargs : κ) : List α :=
  if f x kwargs then [x] else []

end Filter

namespace Each

/-- `Each.apply`: `self.f(x, **kwargs)` — side effect only, nothing pushed. -/
def apply (f : α → κ → Unit) (x : α) (kwargs : κ) : List α :=
  let _ := f x kwargs
  []

end Each

namespace Concat

/-- `Concat.apply`: `self.output_queues.put(x)` — pass-through. -/
def apply (x : α) : List α :=
  [x]

end Concat

/-- Modelled from the spec: the sequence of items a stage delivers to a
consumer that drains it.  The worker/queue machinery (`stage.py`, the Queue
Network, Worker Pool and Termination Protocol of spec §4.1–§4.3) is not under
`src/`; per spec §8 the drained multiset equals the multiset the graph's
transform/filter/expand semantics produce, and `worker_count = 1` pipelines
preserve input order, so we model the drain as the in-order sequential
semantics: fan-in concatenates the dependencies' outputs, and each stage's
per-item behavior is its `apply` method from `api.py` (which is under
`src/`), with `kwargs` the result of `on_start` (empty, i.e. `default`, when
`on_start` is `None`). -/
def stageOutput [Inhabited κ] (s : Stage α κ) : List α :=
  match s with
  | .mk op _ _ on_start _ deps =>
    let kwargs : κ := match on_start with
      | some g => g ()
      | none => default
    let inputs : List α := (deps.attach.map (fun d => stageOutput d.1)).flatten
    match op with
    | .fromIterableOp it _ => it
    | .mapOp f => inputs.flatMap (fun x => Map.apply f x kwargs)
    | .flatMapOp f => inputs.flatMap (fun x => FlatMap.apply f x kwargs)
    | .filterOp f => inputs.flatMap (fun x => Filter.apply f x kwargs)
    | .eachOp f => inputs.flatMap (fun x => Each.apply f x kwargs)
    | .concatOp => inputs.flatMap (fun x => Concat.apply x)
termination_by s
decreasing_by
  have h := List.sizeOf_lt_of_mem d.2
  simp only [Stage.mk.sizeOf_spec]
  omega

/-- `map(f, stage, workers, maxsize, on_start, on_done)` with the `stage`
argument present: `stage = to_stage(stage); return Map(f=f, workers=workers,
maxsize=maxsize, on_start=on_start, on_done=on_done, dependencies=[stage])`. -/
def map (f : α → κ → α) (stage : PyObj α κ) (workers : Nat := 1)
    (maxsize : Nat := 0) (on_start : Option (Unit → κ) := none)
    (on_done : Option (κ → Unit) := none) : Except String (Stage α κ) := do
  let s ← to_stage stage
  .ok (.mk (.mapOp f) workers maxsize on_start on_done [s])

/-- `flat_map(f, stage, workers, maxsize, on_start, on_done)` with the
`stage` argument present. -/
def flat_map (f : α → κ → List α) (stage : PyObj α κ) (workers : Nat := 1)
    (maxsize : Nat := 0) (on_start : Option (Unit → κ) := none)
    (on_done : Option (κ → Unit) := none) : Except String (Stage α κ) := do
  let s ← to_stage stage
  .ok (.mk (.flatMapOp f) workers maxsize on_start on_done [s])

/-- `filter(f, stage, workers, maxsize, on_start, on_done)` with the `stage`
argument present. -/
def filter (f : α → κ → Bool) (stage : PyObj α κ) (workers : Nat := 1)
    (maxsize : Nat := 0) (on_start : Option (Unit → κ) := none)
    (on_done : Option (κ → Unit) := none) : Except String (Stage α κ) := do
  let s ← to_stage stage
  .ok (.mk (.filterOp f) workers maxsize on_start on_done [s])

/-- `each(f, stage, workers, maxsize, on_start, on_done, run)` with the
`stage` argument present: builds the `Each` stage; with `run=False` (the
default) it returns the stage (`some`), with `run=True` it drains the stage
(`for _ in stage: pass`) and returns `None`.  The result pairs the Python
return value with the items consumed from the pipeline during the call. -/
def each [Inhabited κ] (f : α → κ → Unit) (stage : PyObj α κ)
    (workers : Nat := 1) (maxsize : Nat := 0)
    (on_start : Option (Unit → κ) := none)
    (on_done : Option (κ → Unit) := none) ( run : Bool := false) :
    Except String (Option (Stage α κ) × List α) := do
  let s ← to_stage stage
  let st : Stage α κ := .mk (.eachOp f) workers maxsize on_start on_done [s]
  if run then
    .ok (none, stageOutput st)
  else
    .ok (some st, [])

/-- `concat(stages, maxsize=0)`: wraps every element with `to_stage` and
returns `Concat(f=None, workers=1, maxsize=maxsize, on_start=None,
on_done=None, dependencies=stages)`. -/
def concat (stages : List (PyObj α κ)) (maxsize : Nat := 0) :
    Except String (Stage α κ) := do
  let deps ← to_stage_all stages
  .ok (.mk .concatOp 1 maxsize none none deps)

/-- `to_iterable(stage, maxsize)` with the `stage` argument present:
`stage.to_iterable(maxsize=maxsize)`.  Modelled from the spec: `Stage.to_iterable`
lives in `stage.py`, which is not under `src/`; per spec §4.4/§6 it returns the
lazy sequence of the stage's output without forcing consumption, so the model
returns that sequence (`maxsize` only sizes the terminal queue and does not
affect the contents). -/
def to_iterable [Inhabited κ] (stage : Stage α κ) (maxsize : Nat := 0) :
    List α :=
  let _ := maxsize
  stageOutput stage

/-- The argument of `run`: either a Python `list` of stages/iterables or a
single non-list object. -/
inductive RunArg (α κ : Type) : Type where
  | list (l : List (PyObj α κ))
  | single (obj : PyObj α κ)

/-- `run(stages, maxsize=0)`.  The Python function returns `None`; the model
returns the list of items consumed from the pipeline during the call, which is
the observable the spec talks about.
* empty list: `raise ValueError("Expected at least 1 stage to run")`;
* non-empty list: `stage = concat(stages, maxsize=maxsize)` (which may raise
  a `ValueError` via `to_stage`), then `stage = to_iterable(stage, maxsize=maxsize)`
  (builds the lazy sequence, consuming nothing), then `for _ in stages: pass` —
  this iterates the original Python *list* `stages`, yielding its member
  objects and consuming no pipeline items, so the consumed list is `[]`;
* single `Stage`: `stage = stages`, `to_iterable(stage, ...)` builds the lazy
  sequence, and `for _ in stages: pass` iterates the `Stage` itself, which
  (modelled from the spec, `Stage.__iter__` being in `stage.py`, not under
  `src/`) drains it per spec §4.4;
* single non-list iterable or other object: `to_iterable(stages, ...)` calls
  `stages.to_iterable(...)`, which raises `AttributeError` since plain
  iterables have no such method. -/
def run [Inhabited κ] (stages : RunArg α κ) (maxsize : Nat := 0) :
    Except String (List α) :=
  match stages with
  | .list l =>
    if l.length = 0 then
      .error "Expected at least 1 stage to run"
    else do
      let _stage ← concat l maxsize
      .ok []
  | .single obj =>
    match obj with
    | .stage s => .ok (stageOutput s)
    | .iterable _ => .error "AttributeError: to_iterable"
    | .other => .error "AttributeError: to_iterable"

/-- The lambda returned by `from_iterable` when `iterable` is `UNDEFINED`:
`lambda iterable: from_iterable(iterable, maxsize=None,
worker_constructor=worker_constructor)`. -/
def from_iterable_curried (worker_constructor : WorkerCtor) :
    List α → Stage α κ :=
  fun iterable => from_iterable iterable none worker_constructor

/-- The lambda returned by `map` when `stage` is `UNDEFINED`. -/
def map_curried (f : α → κ → α) (workers maxsize : Nat)
    (on_start : Option (Unit → κ)) (on_done : Option (κ → Unit)) :
    PyObj α κ → Except String (Stage α κ) :=
  fun stage => map f stage workers maxsize on_start on_done

/-- The lambda returned by `flat_map` when `stage` is `UNDEFINED`. -/
def flat_map_curried (f : α → κ → List α) (workers maxsize : Nat)
    (on_start : Option (Unit → κ)) (on_done : Option (κ → Unit)) :
    PyObj α κ → Except String (Stage α κ) :=
  fun stage => flat_map f stage workers maxsize on_start on_done

/-- The lambda returned by `filter` when `stage` is `UNDEFINED`. -/
def filter_curried (f : α → κ → Bool) (workers maxsize : Nat)
    (on_start : Option (Unit → κ)) (on_done : Option (κ → Unit)) :
    PyObj α κ → Except String (Stage α κ) :=
  fun stage => filter f stage workers maxsize on_start on_done

/-- The lambda returned by `each` when `stage` is `UNDEFINED`: note that it
forwards `f, workers, maxsize, on_start, on_done` but not `run`, so the
recursive call uses the default `run=False`. -/
def each_curried [Inhabited κ] (f : α → κ → Unit) (workers maxsize : Nat)
    (on_start : Option (Unit → κ)) (on_done : Option (κ → Unit)) :
    PyObj α κ → Except String (Option (Stage α κ) × List α) :=
  fun stage => each f stage workers maxsize on_start on_done false

/-- The lambda returned by `to_iterable` when `stage` is `UNDEFINED`:
`lambda stage: to_iterable(stage, maxsize=maxsize)`. -/
def to_iterable_curried [Inhabited κ] (maxsize : Nat) :
    Stage α κ → List α :=
  fun stage => to_iterable stage maxsize

namespace FromIterable

/-- `FromIterable.process`: `for x in self.iterable: if
self.pipeline_namespace.error: return; self.output_queues.put(x)`.
The shared flag `pipeline_namespace.error` is modelled as the function
`error : Nat → Bool` giving the value the worker observes when it checks the
flag before emitting the element at 0-based position `i`.  The result is the
list of items actually put on the output queues.  `go` carries the position
of the next element to consider. -/
def go (error : Nat → Bool) : List α → Nat → List α
  | [], _ => []
  | x :: xs, i => if error i then [] else x :: go error xs (i + 1)

/-- The list of items `FromIterable.process` puts on the output queues when
producing `iterable` while observing the shared error flag `error`. -/
def process (iterable : List α) (error : Nat → Bool) : List α :=
  go error iterable 0

end FromIterable

/-! Helper lemmas about `FromIterable.go`. -/

/-- Whatever the flag does, `FromIterable.go` emits a prefix of the iterable:
the flag is checked before each emission, so the loop stops atomically between
items. -/
theorem go_eq_take (error : Nat → Bool) :
    ∀ (l : List α) (i : Nat),
      FromIterable.go error l i =
        l.take (FromIterable.go error l i).length := by
  intro l
  induction l with
  | nil => intro i; simp [FromIterable.go]
  | cons x xs ih =>
    intro i
    cases hi : error i with
    | true => simp [FromIterable.go, hi]
    | false =>
      simp only [FromIterable.go, hi, Bool.false_eq_true, if_false,
        List.length_cons, List.take_succ_cons, List.cons.injEq, true_and]
      exact ih (i + 1)

/-- If the flag is monotone (once set it stays set) and is set at position
`n`, then the loop started at position `i` emits at most `n - i` items. -/
theorem go_length_le (error : Nat → Bool) (n : Nat) (hn : error n = true)
    (hmono : ∀ i j, i ≤ j → error i = true → error j = true) :
    ∀ (l : List α) (i : Nat), (FromIterable.go error l i).length ≤ n - i := by
  intro l
  induction l with
  | nil => intro i; simp [FromIterable.go]
  | cons x xs ih =>
    intro i
    cases hi : error i with
    | true => simp [FromIterable.go, hi]
    | false =>
      have hlt : i < n := by
        by_contra hge
        push_neg at hge
        have htrue := hmono n i hge hn
        rw [hi] at htrue
        exact Bool.false_ne_true htrue
      simp only [FromIterable.go, hi, Bool.false_eq_true, if_false,
        List.length_cons]
      have h := ih (i + 1)
      omega

/-- Flat-mapping a one-or-empty function is filtering. -/
theorem flatMap_if_eq_filter (p : α → Bool) :
    ∀ l : List α,
      (l.flatMap fun x => if p x = true then [x] else []) = l.filter p := by
  intro l
  induction l with
  | nil => rfl
  | cons x xs ih => cases h : p x <;> simp_all [List.filter_cons]

/-! Theorems for the claims. -/

/-- C1: the claim says `run` on a non-empty list merges the stages with
`concat` and iterates the merged stage to exhaustion, so that every element
produced by every stage is consumed before `run` returns.  The code instead
executes `for _ in stages: pass` — iterating the original Python *list* of
arguments, which yields the stage objects themselves and consumes nothing
from the pipeline — while the merged iterable built on the previous line is
discarded.  At the failing input `run([a_source_of_1_2_3])` the call returns
having consumed no items, although the merged stage produces `[1, 2, 3]`. -/
theorem run_list_ignores_merged_stage :
    run (α := Int) (κ := Unit) (.list [.iterable [1, 2, 3]]) 0 = .ok []
    ∧ (concat (α := Int) (κ := Unit) [.iterable [1, 2, 3]] 0).map
        (fun s => stageOutput s) = .ok [1, 2, 3] := by
  constructor
  · simp [run, concat, to_stage_all, to_stage, Bind.bind, Except.bind]
  · simp [concat, to_stage_all, to_stage, from_iterable, Bind.bind,
      Except.bind, Except.map, stageOutput, Concat.apply]

/-- C2: `run([])` raises `ValueError("Expected at least 1 stage to run")`,
and giving an object that is neither a `Stage` nor an iterable to any
builder — all of which pass it through `to_stage` — raises
`ValueError("Object ... is not a Stage or iterable")` while the graph is
being built: the builders return the error instead of a stage, so no worker
ever starts and nothing is drained (the model returns no consumed items). -/
theorem structural_misuse_fails_at_construction :
    ∀ (m w : Nat) (f : Int → Unit → Int) (g : Int → Unit → List Int)
      (p : Int → Unit → Bool) (e : Int → Unit → Unit)
      (os : Option (Unit → Unit)) (od : Option (Unit → Unit)) (r : Bool),
      run (α := Int) (κ := Unit) (.list []) m =
          .error "Expected at least 1 stage to run"
      ∧ to_stage (.other : PyObj Int Unit) =
          .error "Object is not a Stage or iterable"
      ∧ map f .other w m os od = .error "Object is not a Stage or iterable"
      ∧ flat_map g .other w m os od =
          .error "Object is not a Stage or iterable"
      ∧ filter p .other w m os od = .error "Object is not a Stage or iterable"
      ∧ each e .other w m os od r = .error "Object is not a Stage or iterable"
      ∧ concat [(.other : PyObj Int Unit)] m =
          .error "Object is not a Stage or iterable"
      ∧ run (α := Int) (κ := Unit) (.list [.other]) m =
          .error "Object is not a Stage or iterable" := by
  intro m w f g p e os od r
  refine ⟨rfl, rfl, rfl, rfl, rfl, ?_, rfl, rfl⟩
  cases r <;> rfl

/-- C3: `FlatMap.apply` pushes exactly the elements of `f(x, **kwargs)`, in
the sequence's order, and nothing when the sequence is empty; consequently a
`flat_map` stage drains to the concatenation of the per-item sequences, and
the concrete scenario (source `[0..9]`, `f x = [] if x = 0 else [x, -x]`,
3 workers) drains to the multiset `{1,-1,...,9,-9}` of 18 items with `0`
absent. -/
theorem flat_map_pushes_each_element :
    (∀ (f : Int → Unit → List Int) (x : Int) (k : Unit),
        FlatMap.apply f x k = f x k)
    ∧ (∀ (f : Int → Unit → List Int) (l : List Int) (w m : Nat),
        (flat_map f (.iterable l) w m none none).map
            (fun s => stageOutput s) =
          .ok (l.flatMap (fun x => f x ())))
    ∧ (flat_map (fun (x : Int) (_ : Unit) => if x = 0 then [] else [x, -x])
          (.iterable [0, 1, 2, 3, 4, 5, 6, 7, 8, 9]) 3 0 none none).map
          (fun s => (stageOutput s : Multiset Int)) =
        .ok (([1, -1, 2, -2, 3, -3, 4, -4, 5, -5, 6, -6, 7, -7, 8, -8, 9, -9] :
              List Int) : Multiset Int)
    ∧ (flat_map (fun (x : Int) (_ : Unit) => if x = 0 then [] else [x, -x])
          (.iterable [0, 1, 2, 3, 4, 5, 6, 7, 8, 9]) 3 0 none none).map
          (fun s => (stageOutput s).length) = .ok 18
    ∧ (flat_map (fun (x : Int) (_ : Unit) => if x = 0 then [] else [x, -x])
          (.iterable [0, 1, 2, 3, 4, 5, 6, 7, 8, 9]) 3 0 none none).map
          (fun s => decide ((0 : Int) ∈ stageOutput s)) = .ok false := by
  refine ⟨fun f x k => rfl, fun f l w m => ?_, ?_, ?_, ?_⟩
  · simp [flat_map, to_stage, from_iterable, Bind.bind, Except.bind,
      Except.map, stageOutput, FlatMap.apply]
  · simp [flat_map, to_stage, from_iterable, Bind.bind, Except.bind,
      Except.map, stageOutput, FlatMap.apply]
  · simp [flat_map, to_stage, from_iterable, Bind.bind, Except.bind,
      Except.map, stageOutput, FlatMap.apply]
  · simp [flat_map, to_stage, from_iterable, Bind.bind, Except.bind,
      Except.map, stageOutput, FlatMap.apply]

/-- C4: `Filter.apply` pushes `x` itself exactly when `f(x, **kwargs)` is
true and nothing otherwise, so a `filter` stage drains to `List.filter`, and
the concrete scenario (source `[0..9]`, predicate `x > 3`, 3 workers) drains
to the multiset `{4, 5, 6, 7, 8, 9}`. -/
theorem filter_pushes_item_iff_predicate :
    (∀ (f : Int → Unit → Bool) (x : Int) (k : Unit),
        Filter.apply f x k = if f x k then [x] else [])
    ∧ (∀ (f : Int → Unit → Bool) (l : List Int) (w m : Nat),
        (filter f (.iterable l) w m none none).map
            (fun s => stageOutput s) =
          .ok (l.filter (fun x => f x ())))
    ∧ (filter (fun (x : Int) (_ : Unit) => decide (x > 3))
          (.iterable [0, 1, 2, 3, 4, 5, 6, 7, 8, 9]) 3 0 none none).map
          (fun s => (stageOutput s : Multiset Int)) =
        .ok (([4, 5, 6, 7, 8, 9] : List Int) : Multiset Int) := by
  refine ⟨fun f x k => rfl, fun f l w m => ?_, ?_⟩
  · simp [filter, to_stage, from_iterable, Bind.bind, Except.bind,
      Except.map, stageOutput, Filter.apply]
    exact flatMap_if_eq_filter (fun x => f x ()) l
  · simp [filter, to_stage, from_iterable, Bind.bind, Except.bind,
      Except.map, stageOutput, Filter.apply]

/-- C5: whenever `concat(stages, maxsize)` succeeds, the result is a single
pass-through `Concat` stage: operation `concatOp` (the Python `f=None`
pass-through), exactly 1 worker, the given `maxsize`, no hooks, and
dependencies exactly the results of `to_stage` on the given objects in order
(iterables wrapped as source stages); its per-item behavior pushes each
received item unchanged. -/
theorem concat_builds_pass_through :
    ∀ (l : List (PyObj Int Unit)) (m : Nat) (s : Stage Int Unit),
      concat l m = .ok s →
      s.op = .concatOp
      ∧ s.workers = 1
      ∧ s.maxsize = m
      ∧ s.on_start = none
      ∧ s.on_done = none
      ∧ to_stage_all l = .ok s.dependencies
      ∧ ∀ x : Int, Concat.apply x = [x] := by
  intro l m s h
  cases hts : to_stage_all l with
  | error msg =>
    rw [concat] at h
    simp only [Bind.bind, Except.bind, hts] at h
    exact Except.noConfusion h
  | ok deps =>
    rw [concat] at h
    simp only [Bind.bind, Except.bind, hts, Except.ok.injEq] at h
    subst h
    exact ⟨rfl, rfl, rfl, rfl, rfl, rfl, fun x => rfl⟩

/-- C5 witness: `concat` applied to one existing stage and one plain
iterable. -/
theorem concat_builds_pass_through_witness :
    (Stage.mk (α := Int) (κ := Unit) .concatOp 1 5 none none
        [from_iterable [1, 2], from_iterable [3]]).op = .concatOp
    ∧ (Stage.mk (α := Int) (κ := Unit) .concatOp 1 5 none none
        [from_iterable [1, 2], from_iterable [3]]).workers = 1
    ∧ (Stage.mk (α := Int) (κ := Unit) .concatOp 1 5 none none
        [from_iterable [1, 2], from_iterable [3]]).maxsize = 5
    ∧ (Stage.mk (α := Int) (κ := Unit) .concatOp 1 5 none none
        [from_iterable [1, 2], from_iterable [3]]).on_start = none
    ∧ (Stage.mk (α := Int) (κ := Unit) .concatOp 1 5 none none
        [from_iterable [1, 2], from_iterable [3]]).on_done = none
    ∧ to_stage_all [.stage (from_iterable [1, 2]), .iterable [3]] =
        .ok (Stage.mk (α := Int) (κ := Unit) .concatOp 1 5 none none
          [from_iterable [1, 2], from_iterable [3]]).dependencies
    ∧ ∀ x : Int, Concat.apply x = [x] :=
  concat_builds_pass_through [.stage (from_iterable [1, 2]), .iterable [3]] 5
    (.mk .concatOp 1 5 none none [from_iterable [1, 2], from_iterable [3]])
    rfl

/-- C6: `to_stage` returns a `Stage` argument unchanged, and wraps a plain
iterable with `from_iterable` (all defaults), giving an implicit source stage
with exactly 1 worker, an empty dependency list, and the `FromIterable`
operation holding the iterable. -/
theorem to_stage_wraps_iterables :
    ∀ (s : Stage Int Unit) (l : List Int),
      to_stage (.stage s) = .ok s
      ∧ to_stage (.iterable l : PyObj Int Unit) = .ok (from_iterable l)
      ∧ (from_iterable l : Stage Int Unit).workers = 1
      ∧ (from_iterable l : Stage Int Unit).dependencies = []
      ∧ (from_iterable l : Stage Int Unit).op = .fromIterableOp l .thread :=
  fun s l => ⟨rfl, rfl, rfl, rfl, rfl⟩

/-- C7: building a downstream stage from an existing descriptor `s` never
mutates `s`: each builder returns a brand-new descriptor whose dependency
list stores `s` itself, identical field for field, so the same `s` may feed
several downstream stages (the last two conjuncts build two different stages
from the same `s` and both store the unchanged `s`). -/
theorem builders_do_not_mutate_dependency :
    ∀ (s : Stage Int Unit) (f : Int → Unit → Int) (g : Int → Unit → List Int)
      (p : Int → Unit → Bool) (e : Int → Unit → Unit) (w m : Nat)
      (os : Option (Unit → Unit)) (od : Option (Unit → Unit)),
      map f (.stage s) w m os od = .ok (.mk (.mapOp f) w m os od [s])
      ∧ flat_map g (.stage s) w m os od =
          .ok (.mk (.flatMapOp g) w m os od [s])
      ∧ filter p (.stage s) w m os od =
          .ok (.mk (.filterOp p) w m os od [s])
      ∧ each e (.stage s) w m os od false =
          .ok (some (.mk (.eachOp e) w m os od [s]), [])
      ∧ concat [.stage s] m = .ok (.mk .concatOp 1 m none none [s])
      ∧ (map f (.stage s) w m os od).map (fun t => t.dependencies) = .ok [s]
      ∧ (filter p (.stage s) w m os od).map (fun t => t.dependencies) =
          .ok [s] :=
  fun s f g p e w m os od => ⟨rfl, rfl, rfl, rfl, rfl, rfl, rfl⟩

/-- C8: `FromIterable.process` samples the shared error flag before putting
each item; when the flag is monotone (it is only ever set, never cleared) and
is set by the time position `n` is reached, the stage puts at most `n` items
— and what it puts is always an initial segment of the iterable, however many
items remain. -/
theorem from_iterable_stops_on_error_flag :
    ∀ (l : List Int) (error : Nat → Bool),
      (∀ i j, i ≤ j → error i = true → error j = true) →
      ∀ n, error n = true →
        (FromIterable.process l error).length ≤ n
        ∧ FromIterable.process l error =
            l.take (FromIterable.process l error).length := by
  intro l error hmono n hn
  constructor
  · have h := go_length_le error n hn hmono l 0
    simpa [FromIterable.process] using h
  · exact go_eq_take error l 0

/-- C8 witness: a flag that turns on from position 2 stops a 5-element
source after at most 2 items. -/
theorem from_iterable_stops_on_error_flag_witness :
    (FromIterable.process ([10, 20, 30, 40, 50] : List Int)
        (fun i => decide (2 ≤ i))).length ≤ 2
    ∧ FromIterable.process ([10, 20, 30, 40, 50] : List Int)
          (fun i => decide (2 ≤ i)) =
        List.take
          (FromIterable.process ([10, 20, 30, 40, 50] : List Int)
            (fun i => decide (2 ≤ i))).length
          [10, 20, 30, 40, 50] :=
  from_iterable_stops_on_error_flag [10, 20, 30, 40, 50]
    (fun i => decide (2 ≤ i))
    (fun i j hij hi => by
      simp only [decide_eq_true_eq] at hi ⊢
      omega)
    2 (by decide)

/-- C9: `from_iterable` never reads its `maxsize` argument: any two calls
differing only in `maxsize` return the same descriptor, and the descriptor
always has exactly 1 worker and `maxsize = 0` (unbounded output queue). -/
theorem from_iterable_ignores_maxsize :
    ∀ (l : List Int) (m₁ m₂ : Option Nat) (wc : WorkerCtor),
      from_iterable (κ := Unit) l m₁ wc = from_iterable l m₂ wc
      ∧ (from_iterable (κ := Unit) l m₁ wc).workers = 1
      ∧ (from_iterable (κ := Unit) l m₁ wc).maxsize = 0 :=
  fun l m₁ m₂ wc => ⟨rfl, rfl, rfl⟩

/-- C10: every builder's curried form (the lambda wrapped in a `Partial`
when the stage/iterable argument is omitted) applied to a stage later gives
exactly the same result as the direct call — for `from_iterable` even though
the lambda hardcodes `maxsize=None`, since `maxsize` is ignored — except
that `each`'s lambda does not forward `run`, so a curried `each` always
returns the built stage (`some`, nothing drained) and never runs
immediately. -/
theorem builders_curried_consistent :
    ∀ (f : Int → Unit → Int) (g : Int → Unit → List Int)
      (p : Int → Unit → Bool) (e : Int → Unit → Unit) (w m : Nat)
      (os : Option (Unit → Unit)) (od : Option (Unit → Unit))
      (o : PyObj Int Unit) (st : Stage Int Unit) (t : Stage Int Unit)
      (l : List Int) (wc : WorkerCtor) (m₂ : Option Nat),
      map_curried f w m os od o = map f o w m os od
      ∧ flat_map_curried g w m os od o = flat_map g o w m os od
      ∧ filter_curried p w m os od o = filter p o w m os od
      ∧ from_iterable_curried (κ := Unit) wc l = from_iterable l m₂ wc
      ∧ to_iterable_curried m st = to_iterable st m
      ∧ each_curried e w m os od o = each e o w m os od false
      ∧ each_curried e w m os od (.stage t) =
          .ok (some (.mk (.eachOp e) w m os od [t]), []) :=
  fun f g p e w m os od o st t l wc m₂ => ⟨rfl, rfl, rfl, rfl, rfl, rfl, rfl⟩

end Pypeln
